import Mathlib

/-!
Verification of the netspeed-monitor GNOME Shell extension
(`extension.js`), a shallow embedding of its sampling, parsing,
rate-computation, formatting and timer-bookkeeping logic.

Modelling conventions:
* JavaScript numbers are modelled by `JsNum`: either `NaN` or an exact
  rational.  Every arithmetic operation performed by the extension is on
  integer byte counters (exact in IEEE doubles below 2^53) or a division
  by the constants 3 and 1024; the idealisation to exact rationals is
  noted where it matters.  JavaScript `undefined`, which arises from
  destructuring a too-short array, behaves exactly like `NaN` under the
  `+=` operations that consume it, so it is identified with `nan`.
* JavaScript strings are modelled by Lean `String`; the string
  operations used by the extension (`trim`, `split(':')`,
  `split(/\s+/)`, `startsWith`, `parseInt`) are re-implemented over the
  character list by structural recursion, so that concrete runs reduce
  in the kernel.
* The mutable indicator state (`_previousRxBytes`, `_previousTxBytes`,
  the label `text`, `_updateTimer`) together with the set of live GLib
  timeout sources is an explicit `World` structure; each method of the
  class becomes a function on `World`.
-/

/-- A JavaScript number as used by the extension: `NaN` or an exact
rational value.  (`undefined` is identified with `nan`: the only use the
code makes of a possibly-undefined number is `+=`, where both behave the
same.) -/
inductive JsNum where
  | nan : JsNum
  | num : ℚ → JsNum
deriving DecidableEq

/-- JavaScript `+` on numbers: `NaN` is absorbing. -/
def jsAdd : JsNum → JsNum → JsNum
  | JsNum.num a, JsNum.num b => JsNum.num (a + b)
  | _, _ => JsNum.nan

/-- JavaScript `-` on numbers: `NaN` is absorbing. -/
def jsSub : JsNum → JsNum → JsNum
  | JsNum.num a, JsNum.num b => JsNum.num (a - b)
  | _, _ => JsNum.nan

/-- JavaScript `/` on numbers.  The extension only ever divides by the
nonzero constants `UPDATE_INTERVAL_SECONDS = 3` and `1024`, so the
division-by-zero case (JS `Infinity`) is collapsed to `nan`; it is never
exercised. -/
def jsDiv : JsNum → JsNum → JsNum
  | JsNum.num a, JsNum.num b => if b = 0 then JsNum.nan else JsNum.num (a / b)
  | _, _ => JsNum.nan

/-- JavaScript `>=` on numbers: any comparison with `NaN` is false. -/
def jsGe : JsNum → JsNum → Bool
  | JsNum.num a, JsNum.num b => decide (b ≤ a)
  | _, _ => false

/-- JavaScript truthiness of a number: `0` and `NaN` are falsy. -/
def jsTruthy : JsNum → Bool
  | JsNum.nan => false
  | JsNum.num a => decide (a ≠ 0)

/-- JavaScript `x ||= y` on numbers: keep `x` when truthy, else `y`. -/
def jsOrElse (cur incoming : JsNum) : JsNum :=
  if jsTruthy cur then cur else incoming

/-- Whitespace as trimmed/split by the JavaScript string operations here
(the snapshots only ever contain spaces, tabs and newlines). -/
def jsIsWs (c : Char) : Bool := c.isWhitespace

/-- `List Char` version of JavaScript `String.prototype.trim`. -/
def trimChars (cs : List Char) : List Char :=
  ((cs.dropWhile jsIsWs).reverse.dropWhile jsIsWs).reverse

/-- JavaScript `line.trim()`. -/
def jsTrim (s : String) : String := ⟨trimChars s.data⟩

/-- Helper for `jsSplitOn`: splits at every occurrence of `sep`,
keeping empty pieces, exactly like JavaScript `split(sep)`. -/
def splitOnCharAux (sep : Char) : List Char → List Char → List (List Char)
  | [], acc => [acc.reverse]
  | c :: rest, acc =>
    if c = sep then acc.reverse :: splitOnCharAux sep rest []
    else splitOnCharAux sep rest (c :: acc)

/-- JavaScript `s.split(sep)` for a single-character separator:
splits at every occurrence, keeps empty pieces, never returns `[]`. -/
def jsSplitOn (sep : Char) (s : String) : List String :=
  (splitOnCharAux sep s.data []).map String.mk

/-- Helper for `jsSplitWsTrimmed`: the maximal runs of non-whitespace
characters, in order. -/
def wsTokensAux : List Char → List Char → List String
  | [], acc => if acc.isEmpty then [] else [String.mk acc.reverse]
  | c :: rest, acc =>
    if jsIsWs c then
      (if acc.isEmpty then wsTokensAux rest []
       else String.mk acc.reverse :: wsTokensAux rest [])
    else wsTokensAux rest (c :: acc)

/-- JavaScript `s.split(/\s+/)` for the strings it is applied to here,
namely already-trimmed ones (the code always calls it as
`data.trim().split(/\s+/)`): the maximal non-whitespace runs, except
that the empty string yields `[""]` as in JavaScript. -/
def jsSplitWsTrimmed (s : String) : List String :=
  if s.data.isEmpty then [""] else wsTokensAux s.data []

/-- Element `i` of a JavaScript array with an explicit default for the
out-of-range (`undefined`) case. -/
def nthD {α : Type} : List α → ℕ → α → α
  | [], _, d => d
  | x :: _, 0, _ => x
  | _ :: xs, n + 1, d => nthD xs n d

/-- Element `i` of a JavaScript array, `none` when out of range
(`undefined`). -/
def nthOpt {α : Type} : List α → ℕ → Option α
  | [], _ => none
  | x :: _, 0 => some x
  | _ :: xs, n + 1 => nthOpt xs n

/-- Value of a digit run, most significant first. -/
def digitsToNat (ds : List Char) : ℕ :=
  ds.foldl (fun a c => 10 * a + (c.toNat - '0'.toNat)) 0

/-- JavaScript `parseInt(s, 10)`: skip leading whitespace, optional
sign, then the longest leading run of decimal digits; `NaN` when that
run is empty.  Trailing garbage is ignored, as in JavaScript. -/
def jsParseInt (s : String) : JsNum :=
  let cs := s.data.dropWhile jsIsWs
  let signed : ℤ × List Char :=
    match cs with
    | '-' :: t => (-1, t)
    | '+' :: t => (1, t)
    | t => (1, t)
  let ds := signed.2.takeWhile Char.isDigit
  if ds.isEmpty then JsNum.nan
  else JsNum.num ((signed.1 * digitsToNat ds : ℤ) : ℚ)

/-! ### Constants (lines 13–15 of `extension.js`) -/

/-- `const UPDATE_INTERVAL_SECONDS = 3`. -/
def UPDATE_INTERVAL_SECONDS : ℚ := 3

/-- `const NETWORK_INTERFACES_TO_IGNORE = ['lo', 'vir', 'vbox', 'docker', 'br-']`. -/
def NETWORK_INTERFACES_TO_IGNORE : List String :=
  ["lo", "vir", "vbox", "docker", "br-"]

/-! ### `_isIgnoredInterface` (lines 59–63) -/

/-- `_isIgnoredInterface`: some configured name-start matches
(`interfaceName.startsWith(p)` is start-of-string comparison of the
character lists). -/
def isIgnoredInterface (interfaceName : String) : Bool :=
  NETWORK_INTERFACES_TO_IGNORE.any fun p => p.data.isPrefixOf interfaceName.data

/-! ### `_formatSpeedValue` (lines 43–56) -/

/-- `const units = ['B/s', 'KB/s', 'MB/s', 'GB/s']`. -/
def units : List String := ["B/s", "KB/s", "MB/s", "GB/s"]

/-- The `while (speed >= 1024 && unitIndex < units.length - 1)` loop of
`_formatSpeedValue`; `remaining = (units.length - 1) - unitIndex` counts
how many more unit steps the guard allows, so the loop is structural.
Returns the final `(speed, unitIndex)`. -/
def scaleAux : JsNum → ℕ → ℕ → JsNum × ℕ
  | speed, unitIndex, 0 => (speed, unitIndex)
  | speed, unitIndex, r + 1 =>
    if jsGe speed (JsNum.num 1024) then
      scaleAux (jsDiv speed (JsNum.num 1024)) (unitIndex + 1) r
    else (speed, unitIndex)

/-- Floor of a rational (`q.den` is always positive, so floored integer
division of numerator by denominator). -/
def ratFloor (q : ℚ) : ℤ := q.num.fdiv (q.den : ℤ)

/-- `speed.toFixed(1)` on a non-`NaN` value: the integer `n` nearest to
`10 * q`, ties picking the larger `n` (the ECMAScript `toFixed` rule),
rendered as a decimal with exactly one digit after the point.  (The
exponential form `toFixed` switches to at magnitudes ≥ 10^21 is outside
the modelled range.) -/
def toFixed1 (q : ℚ) : String :=
  let n : ℤ := ratFloor (q * 10 + 1 / 2)
  (if n < 0 then "-" else "") ++
    toString (n.natAbs / 10) ++ "." ++ toString (n.natAbs % 10)

/-- `speed.toFixed(1)`, including the `NaN` case (which JavaScript
renders as `"NaN"`). -/
def jsToFixed1 : JsNum → String
  | JsNum.nan => "NaN"
  | JsNum.num q => toFixed1 q

/-- `_formatSpeedValue(bytes)`: scale by 1024 while the guard allows,
then `` `${speed.toFixed(1)} ${units[unitIndex]}` ``. -/
def formatSpeedValue (bytes : JsNum) : String :=
  let r := scaleAux bytes 0 (units.length - 1)
  jsToFixed1 r.1 ++ " " ++ nthD units r.2 "undefined"

/-! ### `_readNetworkStats` (lines 66–99) -/

/-- One iteration of the `for (const line of lines.slice(2))` loop of
`_readNetworkStats`, acting on the running `(totalRxBytes, totalTxBytes)`
accumulator:

* `const trimmed = line.trim(); if (!trimmed) continue;`
* `const [iface, data] = trimmed.split(':');`
* `if (!data || this._isIgnoredInterface(iface)) continue;`
* `const [rxBytes, , , , , , , , txBytes] = data.trim().split(/\s+/).map(n => parseInt(n, 10));`
* `totalRxBytes += rxBytes; totalTxBytes += txBytes;`

A destructured element past the end of the array is `undefined`, which
the `+=` treats exactly like `NaN`, hence the `JsNum.nan` defaults. -/
def processLine (acc : JsNum × JsNum) (line : String) : JsNum × JsNum :=
  let trimmed := jsTrim line
  if trimmed.data.isEmpty then acc
  else
    let parts := jsSplitOn ':' trimmed
    match nthOpt parts 1 with
    | none => acc
    | some data =>
      if data.data.isEmpty || isIgnoredInterface (nthD parts 0 "") then acc
      else
        let nums := (jsSplitWsTrimmed (jsTrim data)).map jsParseInt
        (jsAdd acc.1 (nthD nums 0 JsNum.nan), jsAdd acc.2 (nthD nums 8 JsNum.nan))

/-- The pure part of `_readNetworkStats` on a successfully read and
decoded snapshot: split on newlines, skip the two header lines, fold the
per-line accumulation starting from `(0, 0)`. -/
def parseSnapshot (text : String) : JsNum × JsNum :=
  ((jsSplitOn '\n' text).drop 2).foldl processLine (JsNum.num 0, JsNum.num 0)

/-- `_readNetworkStats`: `none` models a failed
`load_contents_async`/`load_contents_finish` (the `catch` block calls
`reject(null)`); a successful read of `text` resolves with the
aggregated totals.  No step of the aggregation itself can throw, so a
successful I/O read always resolves. -/
def readNetworkStats (io : Option String) : Option (JsNum × JsNum) :=
  io.map parseSnapshot

/-! ### The indicator state and `_updateSpeed` (lines 21–34, 102–128) -/

/-- The mutable state of a `NetworkSpeedIndicator` plus the GLib timeout
sources that belong to it: `_previousRxBytes`, `_previousTxBytes`, the
label `text`, `_updateTimer` (`none` = JS `null`), the ids of the
still-registered timeout sources, and the next fresh id GLib will hand
out (source ids are positive and never reused). -/
structure World where
  previousRxBytes : JsNum
  previousTxBytes : JsNum
  text : String
  updateTimer : Option ℕ
  activeSources : List ℕ
  nextId : ℕ
deriving DecidableEq

/-- `_init` (lines 21–34): zero previous counters, no timer, the
initial label text; no GLib source exists yet and ids start at 1. -/
def initialWorld : World :=
  { previousRxBytes := JsNum.num 0
    previousTxBytes := JsNum.num 0
    text := "↓ 0 B/s ↑ 0 B/s"
    updateTimer := none
    activeSources := []
    nextId := 1 }

/-- The per-direction speed computation of `_updateSpeed` (lines
108–118) as a function of the stored previous total and the total just
read:
`this._previousRxBytes ||= totalRxBytes;` followed by
`(totalRxBytes - this._previousRxBytes) / UPDATE_INTERVAL_SECONDS`.
The same expression is used for tx.  Note there is no `max(0, ·)`
clamping in the source. -/
def tickRate (prevStored total : JsNum) : JsNum :=
  jsDiv (jsSub total (jsOrElse prevStored total)) (JsNum.num UPDATE_INTERVAL_SECONDS)

/-- `_updateSpeed` (lines 102–128), given the outcome of the awaited
`_readNetworkStats()`:

* `none` (rejected read): the `await` rethrows, so no statement after it
  runs and the state is untouched (the `if (!stats) return` guard is
  unreachable but would do the same);
* `some (totalRxBytes, totalTxBytes)`: apply the `||=` initialisation,
  format both rates, set the label text and store the current totals as
  the new previous values.  The `||=` writes are folded into `tickRate`:
  the subsequent unconditional `this._previousRxBytes = totalRxBytes`
  makes the net state identical.  No liveness or timer check occurs
  anywhere in the handler. -/
def updateSpeedRun (result : Option (JsNum × JsNum)) (w : World) : World :=
  match result with
  | none => w
  | some (totalRxBytes, totalTxBytes) =>
    let downloadSpeed := formatSpeedValue (tickRate w.previousRxBytes totalRxBytes)
    let uploadSpeed := formatSpeedValue (tickRate w.previousTxBytes totalTxBytes)
    { w with
      previousRxBytes := totalRxBytes
      previousTxBytes := totalTxBytes
      text := "↓ " ++ downloadSpeed ++ " ↑ " ++ uploadSpeed }

/-! ### `startUpdate` / `stopUpdate` (lines 131–152) -/

/-- `GLib.SOURCE_CONTINUE`. -/
def SOURCE_CONTINUE : Bool := true

/-- `startUpdate` (lines 131–144): the initial `this._updateSpeed()`
starts an asynchronous read whose state effect happens at completion
(modelled separately by `updateSpeedRun`); synchronously,.
`GLib.timeout_add_seconds` registers a fresh source and its id is
written over `_updateTimer` — the previously stored id, if any, is
neither removed nor remembered. -/
def startUpdate (w : World) : World :=
  { w with
    updateTimer := some w.nextId
    activeSources := w.nextId :: w.activeSources
    nextId := w.nextId + 1 }

/-- One firing of the registered timeout callback (lines 139–142): it
launches `this._updateSpeed()` (asynchronous; completion modelled by
`updateSpeedRun`) and returns `GLib.SOURCE_CONTINUE` unconditionally,
keeping the source installed. -/
def timerFire (w : World) : World × Bool := (w, SOURCE_CONTINUE)

/-- `stopUpdate` (lines 147–152): when `_updateTimer` is truthy (a
stored positive source id), remove that one source and null the field;
otherwise do nothing.  Total — no path throws. -/
def stopUpdate (w : World) : World :=
  match w.updateTimer with
  | some id => { w with activeSources := w.activeSources.erase id, updateTimer := none }
  | none => w

/-! ### Derived notions used to state the properties -/

/-- The interface-name part of a snapshot line: the piece before the
first `':'` of the trimmed line (the `iface` of
`const [iface, data] = trimmed.split(':')`). -/
def ifaceOf (line : String) : String :=
  nthD (jsSplitOn ':' (jsTrim line)) 0 ""

/-- The contribution of a single snapshot line to the aggregate totals:
`(0, 0)` for lines the loop of `_readNetworkStats` skips (blank,
colon-less, empty-data or ignored-interface lines), and the parsed
`(rxBytes, txBytes)` pair otherwise.  `processLine` adds exactly this to
its accumulator (`processLine_delta` below). -/
def lineDelta (line : String) : JsNum × JsNum :=
  let trimmed := jsTrim line
  if trimmed.data.isEmpty then (JsNum.num 0, JsNum.num 0)
  else
    let parts := jsSplitOn ':' trimmed
    match nthOpt parts 1 with
    | none => (JsNum.num 0, JsNum.num 0)
    | some data =>
      if data.data.isEmpty || isIgnoredInterface (nthD parts 0 "") then
        (JsNum.num 0, JsNum.num 0)
      else
        let nums := (jsSplitWsTrimmed (jsTrim data)).map jsParseInt
        (nthD nums 0 JsNum.nan, nthD nums 8 JsNum.nan)

/-- A snapshot whose only data line carries just eight whitespace-
separated fields (the ninth, tx-bytes, column is missing). -/
def badSnapshot : String := "h1\nh2\neth0: 12 0 0 0 0 0 0 0"

/-! ### Helper lemmas -/

theorem jsAdd_zero (x : JsNum) : jsAdd x (JsNum.num 0) = x := by
  cases x <;> simp [jsAdd]

theorem jsAdd_nan (x : JsNum) : jsAdd x JsNum.nan = JsNum.nan := by
  cases x <;> rfl

theorem jsSub_nan_left (x : JsNum) : jsSub JsNum.nan x = JsNum.nan := by
  cases x <;> rfl

theorem string_append_assoc (a b c : String) : a ++ b ++ c = a ++ (b ++ c) := by
  cases a with
  | mk la =>
    cases b with
    | mk lb =>
      cases c with
      | mk lc => exact congrArg String.mk (List.append_assoc la lb lc)

/-- With a stored previous total of `0`, the `||=` re-initialises the
baseline to the current total and the computed rate is `0`. -/
theorem tickRate_zero_prev (a : ℚ) :
    tickRate (JsNum.num 0) (JsNum.num a) = JsNum.num 0 := by
  simp [tickRate, jsOrElse, jsTruthy, jsSub, jsDiv, UPDATE_INTERVAL_SECONDS]

/-- With a nonzero stored previous total, the `||=` keeps the baseline
and the computed rate is the unclamped difference quotient. -/
theorem tickRate_of_ne (p c : ℚ) (hp : p ≠ 0) :
    tickRate (JsNum.num p) (JsNum.num c) = JsNum.num ((c - p) / 3) := by
  simp [tickRate, jsOrElse, jsTruthy, hp, jsSub, jsDiv, UPDATE_INTERVAL_SECONDS]

/-- A `NaN` total poisons the rate regardless of the stored previous
value. -/
theorem tickRate_nan (p : JsNum) : tickRate p JsNum.nan = JsNum.nan := by
  simp [tickRate, jsSub_nan_left, jsDiv]

theorem stopUpdate_previousRxBytes (w : World) :
    (stopUpdate w).previousRxBytes = w.previousRxBytes := by
  cases w with
  | mk a b t ut src nid => cases ut <;> rfl

theorem stopUpdate_previousTxBytes (w : World) :
    (stopUpdate w).previousTxBytes = w.previousTxBytes := by
  cases w with
  | mk a b t ut src nid => cases ut <;> rfl

theorem updateSpeedRun_some_text (rx tx : JsNum) (w : World) :
    (updateSpeedRun (some (rx, tx)) w).text =
      "↓ " ++ formatSpeedValue (tickRate w.previousRxBytes rx) ++ " ↑ " ++
        formatSpeedValue (tickRate w.previousTxBytes tx) := rfl

/-- `processLine` adds exactly the line's `lineDelta` contribution to
each component of the accumulator. -/
theorem processLine_delta (acc : JsNum × JsNum) (line : String) :
    processLine acc line =
      (jsAdd acc.1 (lineDelta line).1, jsAdd acc.2 (lineDelta line).2) := by
  obtain ⟨a1, a2⟩ := acc
  unfold processLine lineDelta
  by_cases h1 : (jsTrim line).data.isEmpty
  · simp [h1, jsAdd_zero]
  · simp only [h1, Bool.false_eq_true, if_false]
    cases h2 : nthOpt (jsSplitOn ':' (jsTrim line)) 1 with
    | none => simp [jsAdd_zero]
    | some data =>
      by_cases h3 :
          data.data.isEmpty ||
            isIgnoredInterface (nthD (jsSplitOn ':' (jsTrim line)) 0 "")
      · simp [h3, jsAdd_zero]
      · simp [h3]

/-- The whole fold of `_readNetworkStats` is the fold of the per-line
contributions. -/
theorem foldl_processLine (ls : List String) :
    ∀ acc : JsNum × JsNum,
      ls.foldl processLine acc =
        ls.foldl
          (fun a l => (jsAdd a.1 (lineDelta l).1, jsAdd a.2 (lineDelta l).2)) acc := by
  induction ls with
  | nil => intro acc; rfl
  | cons x xs ih =>
    intro acc
    simp only [List.foldl_cons]
    rw [processLine_delta, ih]

theorem nthD_of_length_le {α : Type} (xs : List α) (n : ℕ) (d : α)
    (h : xs.length ≤ n) : nthD xs n d = d := by
  induction xs generalizing n with
  | nil => cases n <;> rfl
  | cons x xs ih =>
    cases n with
    | zero => simp at h
    | succ m => exact ih m (Nat.le_of_succ_le_succ h)

theorem scaleAux_step (q : ℚ) (i r : ℕ) (h : (1024 : ℚ) ≤ q) :
    scaleAux (JsNum.num q) i (r + 1) =
      scaleAux (JsNum.num (q / 1024)) (i + 1) r := by
  simp [scaleAux, jsGe, jsDiv, h, (show (1024 : ℚ) ≠ 0 by norm_num)]

/-! ### Claims -/

/-- Claim C1, counterexample to the claimed clamping: with a stored
previous total of 10 and a current total of 5 (a counter regression),
the claim predicts a rate of `max(0, 5 - 10) / 3 = 0`, but the code
computes `(5 - 10) / 3 = -5/3`, a negative rate, and displays
`-1.7 B/s`. -/
theorem C1_counterexample :
    tickRate (JsNum.num 10) (JsNum.num 5) = JsNum.num (-(5 / 3)) ∧
    tickRate (JsNum.num 10) (JsNum.num 5) ≠
      JsNum.num (max 0 ((5 : ℚ) - 10) / 3) ∧
    (updateSpeedRun (some (JsNum.num 5, JsNum.num 5))
        { initialWorld with
          previousRxBytes := JsNum.num 10
          previousTxBytes := JsNum.num 10 }).text = "↓ -1.7 B/s ↑ -1.7 B/s" := by
  refine ⟨?_, ?_, ?_⟩ <;> with_unfolding_all decide

/-- Claim C1 as amended: on a tick with a previous aggregate sample
whose stored total is nonzero, the computed rate for each direction is
`(current - previous) / intervalSeconds` exactly, with no `max(0, ·)`
clamping: when the counter regresses (`current < previous`) the
computed rate is negative, not 0.  (A stored total equal to 0 instead
re-baselines via `||=`.)  The displayed text is the formatting of
exactly these unclamped rates. -/
theorem C1_unclamped_rate :
    (∀ p c : ℚ, p ≠ 0 →
      tickRate (JsNum.num p) (JsNum.num c) = JsNum.num ((c - p) / 3) ∧
      (c < p → (c - p) / 3 < 0)) ∧
    (∀ (w : World) (rx tx : JsNum),
      (updateSpeedRun (some (rx, tx)) w).text =
        "↓ " ++ formatSpeedValue (tickRate w.previousRxBytes rx) ++ " ↑ " ++
          formatSpeedValue (tickRate w.previousTxBytes tx)) := by
  constructor
  · intro p c hp
    refine ⟨tickRate_of_ne p c hp, fun hlt => ?_⟩
    exact div_neg_of_neg_of_pos (by linarith) (by norm_num)
  · intro w rx tx
    exact updateSpeedRun_some_text rx tx w

/-- Witness for C1: previous total 10, current total 4 — the computed
rate is `(4 - 10) / 3 = -2`, negative. -/
theorem C1_unclamped_rate_witness :
    tickRate (JsNum.num 10) (JsNum.num 4) = JsNum.num ((4 - 10) / 3) ∧
    ((4 : ℚ) - 10) / 3 < 0 := by
  obtain ⟨h1, h2⟩ := C1_unclamped_rate.1 10 4 (by norm_num)
  exact ⟨h1, h2 (by norm_num)⟩

/-- Claim C2, counterexample: on a snapshot whose only candidate data
line has just eight whitespace-separated fields (tx bytes missing),
parsing does not fail — the read resolves with the partially aggregated
sample `(12, NaN)` (the rx column was summed, the missing tx column
became `NaN`), and that sample is used downstream: the label is updated
(to a `NaN` upload display) and the previous-sample state is
overwritten. -/
theorem C2_counterexample :
    readNetworkStats (some badSnapshot) = some (JsNum.num 12, JsNum.nan) ∧
    readNetworkStats (some badSnapshot) ≠ none ∧
    (updateSpeedRun (readNetworkStats (some badSnapshot)) initialWorld).text =
      "↓ 0.0 B/s ↑ NaN B/s" ∧
    (updateSpeedRun (readNetworkStats (some badSnapshot)) initialWorld).previousTxBytes =
      JsNum.nan := by
  refine ⟨?_, ?_, ?_, ?_⟩ <;> with_unfolding_all decide

/-- Claim C2 as amended: a candidate (non-ignored, colon-bearing,
nonempty-data) line whose data portion has fewer than nine
whitespace-separated fields, or a required field that does not parse as
an integer, does not make the read fail; the missing or unparseable
field is `NaN` (`undefined` for the missing ninth column, `parseInt`
`NaN` for an unparseable one), which propagates through the `+=` into
the aggregate total, and the resulting `NaN`-bearing sample is produced
and used downstream: it is formatted into the displayed text (`NaN`
upload) and stored as the new previous-sample baseline. -/
theorem C2_nan_propagation :
    (∀ (line d : String) (acc : JsNum × JsNum),
      (jsTrim line).data.isEmpty = false →
      nthOpt (jsSplitOn ':' (jsTrim line)) 1 = some d →
      d.data.isEmpty = false →
      isIgnoredInterface (ifaceOf line) = false →
      (jsSplitWsTrimmed (jsTrim d)).length < 9 →
      (processLine acc line).2 = JsNum.nan) ∧
    (∀ p : JsNum, tickRate p JsNum.nan = JsNum.nan) ∧
    (∀ (w : World) (rx : JsNum),
      (updateSpeedRun (some (rx, JsNum.nan)) w).previousTxBytes = JsNum.nan ∧
      (updateSpeedRun (some (rx, JsNum.nan)) w).text =
        "↓ " ++ formatSpeedValue (tickRate w.previousRxBytes rx) ++ " ↑ NaN B/s") ∧
    processLine (JsNum.num 0, JsNum.num 0) "eth0: x 0 0 0 0 0 0 0 5" =
      (JsNum.nan, JsNum.num 5) := by
  refine ⟨?_, tickRate_nan, ?_, by with_unfolding_all decide⟩
  · intro line d acc h1 h2 h3 h4 h5
    unfold processLine
    rw [ifaceOf] at h4
    simp only [h1, Bool.false_eq_true, if_false, h2, h3, h4, Bool.or_self, if_false]
    have hlen : ((jsSplitWsTrimmed (jsTrim d)).map jsParseInt).length ≤ 8 := by
      rw [List.length_map]
      omega
    rw [nthD_of_length_le _ _ _ hlen, jsAdd_nan]
  · intro w rx
    refine ⟨rfl, ?_⟩
    rw [updateSpeedRun_some_text, tickRate_nan]
    rw [show formatSpeedValue JsNum.nan = "NaN B/s" from by with_unfolding_all decide]
    rw [string_append_assoc,
      show (" ↑ " ++ "NaN B/s" : String) = " ↑ NaN B/s" from by
        with_unfolding_all decide]

/-- Witness for C2: the candidate line `"eth0: 1 2 3"` has only three
data fields, so its tx contribution is `NaN`. -/
theorem C2_nan_propagation_witness :
    (processLine (JsNum.num 0, JsNum.num 0) "eth0: 1 2 3").2 = JsNum.nan :=
  C2_nan_propagation.1 "eth0: 1 2 3" " 1 2 3" (JsNum.num 0, JsNum.num 0)
    (by decide) (by decide) (by decide) (by decide) (by decide)

/-- Claim C3 (confirmed): a failed read (`updateSpeedRun none`, the
rejected promise making the `await` rethrow) leaves the whole state —
in particular the stored previous totals — unchanged; a subsequent
successful tick therefore computes exactly what it would have computed
against the pre-failure baseline; the read failure itself is just a
`none` from `readNetworkStats`; and the timer callback returns
`GLib.SOURCE_CONTINUE` regardless, so the periodic source stays
installed. -/
theorem C3_failed_tick_preserves_state :
    ∀ (w : World) (r : Option (JsNum × JsNum)),
      updateSpeedRun none w = w ∧
      updateSpeedRun r (updateSpeedRun none w) = updateSpeedRun r w ∧
      readNetworkStats none = none ∧
      (timerFire w).2 = SOURCE_CONTINUE := by
  intro w r
  exact ⟨rfl, rfl, rfl, rfl⟩

/-- Claim C4 (confirmed): on the first tick after `startUpdate`, with
the `_init` state (previous totals 0), the `||=` treats the current
sample as the baseline, so both displayed rates are `0.0 B/s` whatever
integer counter totals were read, and the read totals become the stored
baseline for the next tick. -/
theorem C4_first_tick_zero_rate :
    ∀ a b : ℚ,
      (updateSpeedRun (some (JsNum.num a, JsNum.num b))
          (startUpdate initialWorld)).text = "↓ 0.0 B/s ↑ 0.0 B/s" ∧
      (updateSpeedRun (some (JsNum.num a, JsNum.num b))
          (startUpdate initialWorld)).previousRxBytes = JsNum.num a ∧
      (updateSpeedRun (some (JsNum.num a, JsNum.num b))
          (startUpdate initialWorld)).previousTxBytes = JsNum.num b := by
  intro a b
  refine ⟨?_, rfl, rfl⟩
  rw [updateSpeedRun_some_text]
  rw [show (startUpdate initialWorld).previousRxBytes = JsNum.num 0 from rfl,
    show (startUpdate initialWorld).previousTxBytes = JsNum.num 0 from rfl,
    tickRate_zero_prev, tickRate_zero_prev]
  with_unfolding_all decide

/-- Claim C5 (confirmed): a stored previous total equal to `0` is falsy,
so the `||=` re-initialises the baseline to the just-read total exactly
as on a first tick: the computed rate for that direction is `0`
regardless of how many bytes actually arrived during the interval, and
the just-read total becomes the stored baseline.  The rx and tx
directions behave this way independently. -/
theorem C5_zero_prev_rebaseline :
    ∀ (w : World) (a b : ℚ),
      (w.previousRxBytes = JsNum.num 0 →
        tickRate w.previousRxBytes (JsNum.num a) = JsNum.num 0 ∧
        (updateSpeedRun (some (JsNum.num a, JsNum.num b)) w).previousRxBytes =
          JsNum.num a) ∧
      (w.previousTxBytes = JsNum.num 0 →
        tickRate w.previousTxBytes (JsNum.num b) = JsNum.num 0 ∧
        (updateSpeedRun (some (JsNum.num a, JsNum.num b)) w).previousTxBytes =
          JsNum.num b) := by
  intro w a b
  constructor
  · intro h
    rw [h]
    exact ⟨tickRate_zero_prev a, rfl⟩
  · intro h
    rw [h]
    exact ⟨tickRate_zero_prev b, rfl⟩

/-- Witness for C5: with the initial state (stored totals 0) and a read
of 5000 rx / 7 tx bytes, both rates are 0 and the baseline becomes
`(5000, 7)`. -/
theorem C5_zero_prev_rebaseline_witness :
    tickRate initialWorld.previousRxBytes (JsNum.num 5000) = JsNum.num 0 ∧
    (updateSpeedRun (some (JsNum.num 5000, JsNum.num 7))
        initialWorld).previousRxBytes = JsNum.num 5000 ∧
    tickRate initialWorld.previousTxBytes (JsNum.num 7) = JsNum.num 0 ∧
    (updateSpeedRun (some (JsNum.num 5000, JsNum.num 7))
        initialWorld).previousTxBytes = JsNum.num 7 := by
  obtain ⟨h1, h2⟩ := C5_zero_prev_rebaseline initialWorld 5000 7
  obtain ⟨h1a, h1b⟩ := h1 rfl
  obtain ⟨h2a, h2b⟩ := h2 rfl
  exact ⟨h1a, h1b, h2a, h2b⟩

/-- Claim C6 (confirmed): `_formatSpeedValue` repeatedly divides by 1024
and advances the unit while the value is ≥ 1024 and a larger unit
remains, renders one decimal digit, a space and the unit label, and
matches all five example values; for any value ≥ 2^40 the loop stops at
`GB/s` (the unit ceiling) even though the scaled value is still ≥ 1024,
returning the value divided by 2^30 with the `GB/s` label. -/
theorem C6_format_speed :
    formatSpeedValue (JsNum.num 0) = "0.0 B/s" ∧
    formatSpeedValue (JsNum.num 1023) = "1023.0 B/s" ∧
    formatSpeedValue (JsNum.num 1024) = "1.0 KB/s" ∧
    formatSpeedValue (JsNum.num 1536) = "1.5 KB/s" ∧
    formatSpeedValue (JsNum.num (1024 * 1024 * 5)) = "5.0 MB/s" ∧
    ∀ b : ℚ, (2 : ℚ) ^ 40 ≤ b →
      formatSpeedValue (JsNum.num b) = toFixed1 (b / 2 ^ 30) ++ " GB/s" := by
  refine ⟨by with_unfolding_all decide, by with_unfolding_all decide,
    by with_unfolding_all decide, by with_unfolding_all decide,
    by with_unfolding_all decide, ?_⟩
  intro b hb
  have h0 : (1024 : ℚ) ≤ b := le_trans (by norm_num) hb
  have h1 : (1024 : ℚ) ≤ b / 1024 := by
    rw [le_div_iff₀ (by norm_num : (0 : ℚ) < 1024)]
    exact le_trans (by norm_num) hb
  have h2 : (1024 : ℚ) ≤ b / 1024 / 1024 := by
    rw [div_div, le_div_iff₀ (by norm_num : (0 : ℚ) < 1024 * 1024)]
    exact le_trans (by norm_num) hb
  have hscale : scaleAux (JsNum.num b) 0 (units.length - 1) =
      (JsNum.num (b / 1024 / 1024 / 1024), 3) := by
    rw [show units.length - 1 = 2 + 1 from rfl, scaleAux_step b 0 2 h0,
      scaleAux_step (b / 1024) 1 1 h1, scaleAux_step (b / 1024 / 1024) 2 0 h2]
    rfl
  have hmerge : b / 1024 / 1024 / 1024 = b / 2 ^ 30 := by
    rw [div_div, div_div]
    norm_num
  rw [formatSpeedValue, hscale, hmerge]
  show toFixed1 (b / 2 ^ 30) ++ " " ++ "GB/s" = toFixed1 (b / 2 ^ 30) ++ " GB/s"
  rw [string_append_assoc,
    show (" " ++ "GB/s" : String) = " GB/s" from by with_unfolding_all decide]

/-- Witness for C6: `2^40` bytes/second is scaled three times and
rendered with the `GB/s` ceiling unit as `1024.0 GB/s`. -/
theorem C6_format_speed_witness :
    formatSpeedValue (JsNum.num ((2 : ℚ) ^ 40)) =
      toFixed1 ((2 : ℚ) ^ 40 / 2 ^ 30) ++ " GB/s" :=
  C6_format_speed.2.2.2.2.2 ((2 : ℚ) ^ 40) (by norm_num)

/-- Claim C7 (confirmed): a line whose interface name (the part before
the first colon of the trimmed line) starts with one of the configured
ignored name-starts contributes `(0, 0)` to the aggregate, whatever its
counter fields hold; and the aggregate of a snapshot is exactly the sum
(the fold under JavaScript `+=`) of the per-line contributions of the
lines after the two headers, so every non-ignored parsed line's rx and
tx bytes are summed in. -/
theorem C7_ignored_contributes_zero :
    (∀ line : String, isIgnoredInterface (ifaceOf line) = true →
      lineDelta line = (JsNum.num 0, JsNum.num 0)) ∧
    (∀ text : String, parseSnapshot text =
      ((jsSplitOn '\n' text).drop 2).foldl
        (fun a l => (jsAdd a.1 (lineDelta l).1, jsAdd a.2 (lineDelta l).2))
        (JsNum.num 0, JsNum.num 0)) := by
  constructor
  · intro line h
    unfold lineDelta
    rw [ifaceOf] at h
    by_cases h1 : (jsTrim line).data.isEmpty
    · simp [h1]
    · simp only [h1, Bool.false_eq_true, if_false]
      cases h2 : nthOpt (jsSplitOn ':' (jsTrim line)) 1 with
      | none => rfl
      | some data => simp [h]
  · intro text
    exact foldl_processLine _ _

/-- Witness for C7: a loopback line with large counter values
contributes nothing. -/
theorem C7_ignored_contributes_zero_witness :
    lineDelta "lo: 999 0 0 0 0 0 0 0 888 0 0 0 0 0 0 0" =
      (JsNum.num 0, JsNum.num 0) :=
  C7_ignored_contributes_zero.1 "lo: 999 0 0 0 0 0 0 0 888 0 0 0 0 0 0 0"
    (by decide)

/-- Claim C8, counterexample: calling `startUpdate` twice without an
intervening `stopUpdate` leaves two live timeout sources (the first id
is overwritten in `_updateTimer` but its source is never removed), so
"at most one timer active at every reachable state" fails; and a
subsequent `stopUpdate` removes only the most recent source, leaving
the first one running. -/
theorem C8_counterexample :
    (startUpdate (startUpdate initialWorld)).activeSources.length = 2 ∧
    ¬ (startUpdate (startUpdate initialWorld)).activeSources.length ≤ 1 ∧
    (stopUpdate (startUpdate (startUpdate initialWorld))).activeSources = [1] ∧
    (stopUpdate (startUpdate (startUpdate initialWorld))).activeSources ≠ [] := by
  refine ⟨rfl, by decide, rfl, by decide⟩

/-- Claim C8 as amended: `startUpdate` registers a fresh timeout source
unconditionally and overwrites `_updateTimer` with its id, so every
extra `startUpdate` without an intervening `stopUpdate` adds one more
live source, and a `stopUpdate` after a double start removes only the
most recently registered source, leaking the earlier one.  At most one
timer is live only under the alternating discipline the extension's
enable/disable lifecycle actually follows — a single `startUpdate` from
a state with no live source, after which `stopUpdate` leaves none. -/
theorem C8_start_leaks_timer :
    ∀ w : World,
      (startUpdate w).activeSources.length = w.activeSources.length + 1 ∧
      (startUpdate w).updateTimer = some w.nextId ∧
      (w.activeSources = [] →
        (stopUpdate (startUpdate w)).activeSources = [] ∧
        (stopUpdate (startUpdate (startUpdate w))).activeSources = [w.nextId]) := by
  intro w
  refine ⟨rfl, rfl, fun h => ⟨?_, ?_⟩⟩
  · show (w.nextId :: w.activeSources).erase w.nextId = []
    rw [h, List.erase_cons_head]
  · show ((w.nextId + 1) :: w.nextId :: w.activeSources).erase (w.nextId + 1) =
      [w.nextId]
    rw [h, List.erase_cons_head]

/-- Witness for C8: from the initial state, start–stop leaves no live
source, while start–start–stop leaves source 1 leaked. -/
theorem C8_start_leaks_timer_witness :
    (stopUpdate (startUpdate initialWorld)).activeSources = [] ∧
    (stopUpdate (startUpdate (startUpdate initialWorld))).activeSources =
      [initialWorld.nextId] :=
  (C8_start_leaks_timer initialWorld).2.2 rfl

/-- Claim C9, counterexample: after `stopUpdate` returns, the completion
of a read that was in flight still runs the whole `_updateSpeed` body —
the label text is set (a display update) and the previous-sample state
is overwritten, because the completion handler checks no liveness flag.
-/
theorem C9_counterexample :
    (updateSpeedRun (some (JsNum.num 7, JsNum.num 9))
        (stopUpdate (startUpdate initialWorld))).text = "↓ 0.0 B/s ↑ 0.0 B/s" ∧
    (updateSpeedRun (some (JsNum.num 7, JsNum.num 9))
          (stopUpdate (startUpdate initialWorld))).text ≠
        (stopUpdate (startUpdate initialWorld)).text ∧
    (updateSpeedRun (some (JsNum.num 7, JsNum.num 9))
          (stopUpdate (startUpdate initialWorld))).previousRxBytes ≠
        (stopUpdate (startUpdate initialWorld)).previousRxBytes := by
  refine ⟨?_, ?_, ?_⟩ <;> with_unfolding_all decide

/-- Claim C9 as amended: `stopUpdate` only cancels the pending timer; it
suppresses nothing in flight.  The `_updateSpeed` completion handler
consults no liveness flag, so it acts identically whether or not
`stopUpdate` has run (the two commute), and a read completing after
`stopUpdate` still sets the label from the computed rates and
overwrites the previous-sample state. -/
theorem C9_no_liveness_check :
    ∀ (r : Option (JsNum × JsNum)) (w : World),
      updateSpeedRun r (stopUpdate w) = stopUpdate (updateSpeedRun r w) ∧
      ∀ rx tx : JsNum,
        (updateSpeedRun (some (rx, tx)) (stopUpdate w)).text =
          "↓ " ++ formatSpeedValue (tickRate w.previousRxBytes rx) ++ " ↑ " ++
            formatSpeedValue (tickRate w.previousTxBytes tx) := by
  intro r w
  constructor
  · cases r with
    | none => rfl
    | some p =>
      obtain ⟨rx, tx⟩ := p
      cases w with
      | mk a b t ut src nid => cases ut <;> rfl
  · intro rx tx
    rw [updateSpeedRun_some_text, stopUpdate_previousRxBytes,
      stopUpdate_previousTxBytes]

/-- Claim C10 (confirmed): `stopUpdate` never throws (it is a total
function by construction), is idempotent (the second of two consecutive
calls is a no-op), is a no-op on a never-started indicator
(`_updateTimer` null), and after a start from a state with no live
source, one `stopUpdate` — and equally two in a row — leaves no live
timeout source. -/
theorem C10_stop_idempotent :
    (∀ w : World, stopUpdate (stopUpdate w) = stopUpdate w) ∧
    (∀ w : World, w.updateTimer = none → stopUpdate w = w) ∧
    (∀ w : World, w.activeSources = [] →
      (stopUpdate (startUpdate w)).activeSources = [] ∧
      (stopUpdate (stopUpdate (startUpdate w))).activeSources = []) := by
  refine ⟨?_, ?_, ?_⟩
  · intro w
    cases w with
    | mk a b t ut src nid => cases ut <;> rfl
  · intro w h
    cases w with
    | mk a b t ut src nid =>
      cases ut with
      | none => rfl
      | some id => exact absurd h (by simp)
  · intro w h
    have h1 : (stopUpdate (startUpdate w)).activeSources = [] := by
      show (w.nextId :: w.activeSources).erase w.nextId = []
      rw [h, List.erase_cons_head]
    refine ⟨h1, ?_⟩
    show (stopUpdate (stopUpdate (startUpdate w))).activeSources = []
    have h2 : (stopUpdate (startUpdate w)).updateTimer = none := rfl
    cases hs : stopUpdate (startUpdate w) with
    | mk a b t ut src nid =>
      rw [hs] at h1 h2
      simp only at h1 h2
      subst h2
      subst h1
      rfl

/-- Witness for C10: concrete double stop after a single start from the
initial state — idempotent, no-op when never started, and no live
source remains after either stop. -/
theorem C10_stop_idempotent_witness :
    stopUpdate (stopUpdate (startUpdate initialWorld)) =
      stopUpdate (startUpdate initialWorld) ∧
    stopUpdate initialWorld = initialWorld ∧
    (stopUpdate (startUpdate initialWorld)).activeSources = [] ∧
    (stopUpdate (stopUpdate (startUpdate initialWorld))).activeSources = [] :=
  ⟨C10_stop_idempotent.1 (startUpdate initialWorld),
    C10_stop_idempotent.2.1 initialWorld rfl,
    (C10_stop_idempotent.2.2 initialWorld rfl).1,
    (C10_stop_idempotent.2.2 initialWorld rfl).2⟩
